import Mathlib

/-!
# Verification of the GLMT proxy subsystem

A shallow embedding of the GLMT request/response pipeline of this repository
(src/bin/glmt-transformer.js and src/bin/glmt-proxy.js), with theorems settling
the claims of the specification against it.

Modelling conventions:
- JavaScript objects become Lean structures; fields that may be absent become
  Option types; dynamic values that would make the JS code throw are
  represented by explicit invalid variants carrying the exception message.
- JS string truthiness (non-empty) is modelled explicitly.
- The SHA-256 hex digest and the wall clock are passed in as parameters
  (sha256hex, now); no claim depends on their values.
- A JSON argument string is modelled by its parse outcome (ArgsField), since
  no claim depends on the JSON grammar itself.
-/

namespace Glmt

/-- ASCII lowercasing of one character, matching how the case-insensitive
regular-expression flag of the source treats ASCII letters. -/
def asciiLower (c : Char) : Char :=
  if 65 ≤ c.toNat ∧ c.toNat ≤ 90 then Char.ofNat (c.toNat + 32) else c

/-- The characters of a string, ASCII-lowercased. -/
def lowerChars (s : String) : List Char := s.data.map asciiLower

/-- One content block of an inbound message. The source only ever inspects the
type tag and, for text blocks, the text field; any further fields of the JS
object are collected in extra. -/
structure Block where
  type : String
  text : String := ""
  extra : List (String × String) := []
deriving DecidableEq, Repr

/-- The content field of an inbound message: a plain string, an array of
blocks, or any other JS value (the source's fallback case). -/
inductive Content where
  | str (s : String)
  | blocks (bs : List Block)
  | other
deriving DecidableEq, Repr

/-- An inbound (Anthropic-style) message. Fields of the JS object other than
role and content are collected in extra. -/
structure Message where
  role : String
  content : Content
  extra : List (String × String) := []
deriving DecidableEq, Repr

/-- ThinkingConfig as computed by tag extraction (source:
GlmtTransformer._extractThinkingControl's result shape). -/
structure ThinkingConfig where
  thinking : Bool
  effort : String
deriving DecidableEq, Repr

/-- Lowercased pattern of the Thinking-On control tag. -/
def thinkOnPat : List Char := "<thinking:on>".data

/-- Lowercased pattern of the Thinking-Off control tag. -/
def thinkOffPat : List Char := "<thinking:off>".data

/-- First match of the regular expression matching Thinking On or Off tags
(case-insensitive, no global flag: the FIRST occurrence in the string wins).
Input is the lowercased character list of the message content. -/
def matchThinking : List Char → Option Bool
  | [] => none
  | c :: cs =>
    if thinkOnPat.isPrefixOf (c :: cs) then some true
    else if thinkOffPat.isPrefixOf (c :: cs) then some false
    else matchThinking cs

/-- Lowercased pattern of the Effort-Low control tag. -/
def effortLowPat : List Char := "<effort:low>".data

/-- Lowercased pattern of the Effort-Medium control tag. -/
def effortMediumPat : List Char := "<effort:medium>".data

/-- Lowercased pattern of the Effort-High control tag. -/
def effortHighPat : List Char := "<effort:high>".data

/-- First match of the regular expression matching Effort tags
(case-insensitive, no global flag: first occurrence wins), returning the
lowercased captured group exactly as the source stores it. -/
def matchEffort : List Char → Option String
  | [] => none
  | c :: cs =>
    if effortLowPat.isPrefixOf (c :: cs) then some "low"
    else if effortMediumPat.isPrefixOf (c :: cs) then some "medium"
    else if effortHighPat.isPrefixOf (c :: cs) then some "high"
    else matchEffort cs

/-- One step of the scan of GlmtTransformer._extractThinkingControl: skip
non-user messages and non-string contents, otherwise apply the first match of
each control tag to the accumulated config. -/
def controlStep (config : ThinkingConfig) (msg : Message) : ThinkingConfig :=
  if msg.role == "user" then
    match msg.content with
    | .str s =>
      let cs := lowerChars s
      let c1 :=
        match matchThinking cs with
        | some b => { config with thinking := b }
        | none => config
      match matchEffort cs with
      | some e => { c1 with effort := e }
      | none => c1
    | _ => config
  else config

/-- GlmtTransformer._extractThinkingControl: scan the messages in order,
starting from the constructor default (defaultThinking, effort medium). -/
def extractThinkingControl (defaultThinking : Bool) (messages : List Message) :
    ThinkingConfig :=
  messages.foldl controlStep { thinking := defaultThinking, effort := "medium" }

/-- Sanitization of a single message (the body of the map in
GlmtTransformer._sanitizeMessages): string content passes through as-is,
block arrays are filtered to text blocks, an empty result becomes the empty
string, a single text block collapses to its text, several blocks remain an
array; the rebuilt message keeps only role and content. -/
def sanitizeMessage (msg : Message) : Message :=
  match msg.content with
  | .str _ => msg
  | .other => msg
  | .blocks bs =>
    let sanitizedContent := bs.filter (fun b => b.type == "text")
    match sanitizedContent with
    | [] => { role := msg.role, content := .str "" }
    | [b] =>
      if b.type == "text" then { role := msg.role, content := .str b.text }
      else { role := msg.role, content := .blocks [b] }
    | _ => { role := msg.role, content := .blocks sanitizedContent }

/-- GlmtTransformer._sanitizeMessages: sanitize every message. -/
def sanitizeMessages (messages : List Message) : List Message :=
  messages.map sanitizeMessage

/-- The messages field of an inbound request. list covers a proper JSON array,
absent covers null or a missing field (the source replaces it by an empty
array), and invalid covers any other JS value, on which the transformation
code throws; the carried string is the runtime exception message. -/
inductive MessagesField where
  | absent
  | list (ms : List Message)
  | invalid (errMsg : String)
deriving DecidableEq, Repr

/-- An inbound (Anthropic-style) request. -/
structure AnthropicRequest where
  model : Option String := none
  messages : MessagesField
  stream : Option Bool := none
  temperature : Option Int := none
  top_p : Option Int := none
deriving DecidableEq, Repr

/-- The outbound (OpenAI-style) request built by GlmtTransformer. -/
structure OpenAIRequest where
  model : String
  messages : List Message
  max_tokens : Nat
  stream : Bool
  temperature : Option Int := none
  top_p : Option Int := none
  do_sample : Bool := true
  reasoning : Option Bool := none
  reasoning_effort : Option String := none
deriving DecidableEq, Repr

/-- GlmtTransformer._mapModel: every inbound model maps to GLM-4.6. -/
def mapModel (_anthropicModel : Option String) : String := "GLM-4.6"

/-- The per-model token-cap table from the GlmtTransformer constructor. -/
def modelMaxTokens (model : String) : Option Nat :=
  if model = "GLM-4.6" then some 128000
  else if model = "GLM-4.5" then some 96000
  else if model = "GLM-4.5-air" then some 16000
  else none

/-- GlmtTransformer._getMaxTokens: table lookup with fallback 128000. -/
def getMaxTokens (model : String) : Nat := (modelMaxTokens model).getD 128000

/-- GlmtTransformer._injectReasoningParams: always set do_sample, and add the
reasoning fields exactly when thinking is enabled. -/
def injectReasoningParams (req : OpenAIRequest) (cfg : ThinkingConfig) :
    OpenAIRequest :=
  let req := { req with do_sample := true }
  if cfg.thinking then
    { req with reasoning := some true, reasoning_effort := some cfg.effort }
  else req

/-- The thinkingConfig object returned by transformRequest. On the fallback
path the source returns an object with only a thinking field, so effort is
optional here; the object itself never carries an error field. -/
structure ThinkingConfigObj where
  thinking : Bool
  effort : Option String := none
  error : Option String := none
deriving DecidableEq, Repr

/-- What transformRequest hands the caller as openaiRequest: either a built
outbound request, or (on the fallback path) the original inbound payload. -/
inductive OutPayload where
  | openai (r : OpenAIRequest)
  | original (r : AnthropicRequest)
deriving DecidableEq, Repr

/-- The full return value of GlmtTransformer.transformRequest. The error
field models the error property of the returned JS object (absent on the
normal path). -/
structure TransformResult where
  openaiRequest : OutPayload
  thinkingConfig : ThinkingConfigObj
  error : Option String := none
deriving DecidableEq, Repr

/-- The source's messages-or-empty-array coercion (messages or []). Only
reached on non-invalid fields. -/
def msgsOrEmpty : MessagesField → List Message
  | .absent => []
  | .list ms => ms
  | .invalid _ => []

/-- GlmtTransformer.transformRequest. On an invalid messages value the JS
body throws (a for-of loop over a non-iterable), the catch block fires, and
the original payload is returned with thinking forced off and the exception
message in the error property of the result. -/
def transformRequest (defaultThinking : Bool) (req : AnthropicRequest) :
    TransformResult :=
  match req.messages with
  | .invalid m =>
    { openaiRequest := .original req
      thinkingConfig := { thinking := false }
      error := some m }
  | mf =>
    let msgs := msgsOrEmpty mf
    let thinkingConfig := extractThinkingControl defaultThinking msgs
    let glmModel := mapModel req.model
    let base : OpenAIRequest :=
      { model := glmModel
        messages := sanitizeMessages msgs
        max_tokens := getMaxTokens glmModel
        stream := req.stream.getD false
        temperature := req.temperature
        top_p := req.top_p }
    let overridden := if req.stream.getD false then { base with stream := false } else base
    let final := injectReasoningParams overridden thinkingConfig
    { openaiRequest := .openai final
      thinkingConfig :=
        { thinking := thinkingConfig.thinking, effort := some thinkingConfig.effort }
      error := none }

/-- The stream field of the forwarded payload, as it appears on the wire: a
built outbound request always carries a boolean stream field, the original
inbound payload carries whatever the client sent (possibly nothing). -/
def outStream : OutPayload → Option Bool
  | .openai r => some r.stream
  | .original r => r.stream

/-- A JSON value, used for the decoded tool-call argument objects and the
verbatim usage passthrough. -/
inductive JsonV where
  | null
  | bool (b : Bool)
  | num (n : Int)
  | str (s : String)
  | arr (elems : List JsonV)
  | obj (fields : List (String × JsonV))
deriving Repr

/-- JS truthiness of a JSON value. -/
def jsTruthy : JsonV → Bool
  | .null => false
  | .bool b => b
  | .num n => n != 0
  | .str s => s != ""
  | .arr _ => true
  | .obj _ => true

/-- A tool-call argument string, modelled by its parse outcome: empty covers
a falsy arguments value (replaced by the empty-object literal in the source),
valid covers a string that JSON-parses to v, invalid covers a string on which
the JSON parse throws (carrying the runtime exception message). -/
inductive ArgsField where
  | empty
  | valid (v : JsonV)
  | invalid (errMsg : String)
deriving Repr

/-- The function object of an upstream tool call. -/
structure ToolFunction where
  name : String
  arguments : ArgsField
deriving Repr

/-- An upstream tool call. -/
structure ToolCall where
  id : String
  function : ToolFunction
deriving Repr

/-- The message object of an upstream choice. -/
structure UMessage where
  content : Option String := none
  reasoning_content : Option String := none
  tool_calls : Option (List ToolCall) := none
deriving Repr

/-- One upstream choice. -/
structure Choice where
  message : UMessage
  finish_reason : Option String := none
deriving Repr

/-- An upstream (OpenAI-style) chat-completion response. -/
structure OpenAIResponse where
  id : Option String := none
  model : Option String := none
  choices : Option (List Choice) := none
  usage : Option JsonV := none
deriving Repr

/-- The signature attached to a thinking block
(GlmtTransformer._generateThinkingSignature). -/
structure ThinkingSignature where
  type : String := "thinking_signature"
  hash : String
  length : Nat
  timestamp : Nat
deriving Repr

/-- A content block of the translated (Anthropic-style) response. -/
inductive CBlock where
  | thinking (text : String) (signature : ThinkingSignature)
  | text (s : String)
  | toolUse (id : String) (name : String) (input : JsonV)
deriving Repr

/-- The usage field of the translated response: the upstream usage object
passed through verbatim, or the zeroed fallback object. -/
inductive UsageOut where
  | passthrough (v : JsonV)
  | zeros
deriving Repr

/-- The translated (Anthropic-style) response. The model field is absent on
the error path of the source (its minimal response has no model key). -/
structure AnthropicResponse where
  id : String
  type : String := "message"
  role : String := "assistant"
  content : List CBlock
  model : Option String := none
  stop_reason : String
  usage : UsageOut
deriving Repr

/-- GlmtTransformer._generateThinkingSignature: truncated hex digest, length
and timestamp. sha256hex abstracts the SHA-256 hex digest and now the clock;
no claim depends on their values. -/
def generateThinkingSignature (sha256hex : String → String) (now : Nat)
    (thinking : String) : ThinkingSignature :=
  { hash := (sha256hex thinking).take 16
    length := thinking.length
    timestamp := now }

/-- JS truthiness of an optional string field. -/
def strTruthy : Option String → Bool
  | some s => s != ""
  | none => false

/-- GlmtTransformer._mapStopReason: fixed table with default end_turn. -/
def mapStopReason (openaiReason : Option String) : String :=
  match openaiReason with
  | some "stop" => "end_turn"
  | some "length" => "max_tokens"
  | some "tool_calls" => "tool_use"
  | some "content_filter" => "stop_sequence"
  | _ => "end_turn"

/-- The tool-use building loop of transformResponse: one tool_use block per
tool call in order; a malformed argument string makes the loop body throw
(Except.error carries the runtime message), a falsy one decodes to the empty
object. -/
def buildToolBlocks : List ToolCall → Except String (List CBlock)
  | [] => .ok []
  | tc :: rest =>
    match tc.function.arguments with
    | .invalid m => .error m
    | .empty =>
      (buildToolBlocks rest).map
        (fun bs => CBlock.toolUse tc.id tc.function.name (.obj []) :: bs)
    | .valid v =>
      (buildToolBlocks rest).map
        (fun bs => CBlock.toolUse tc.id tc.function.name v :: bs)

/-- The minimal valid response built by the catch block of
transformResponse. -/
def errorResponse (now : Nat) (msg : String) : AnthropicResponse :=
  { id := "msg_error_" ++ toString now
    content := [.text ("[Transformation Error] " ++ msg)]
    model := none
    stop_reason := "end_turn"
    usage := .zeros }

/-- The tool-call list the source iterates over (empty when the field is
absent or the array is empty). -/
def toolCallsOf (m : UMessage) : List ToolCall :=
  match m.tool_calls with
  | some l => if l.length > 0 then l else []
  | none => []

/-- GlmtTransformer.transformResponse. A missing first choice throws inside
the try block; that exception and a tool-argument parse exception are both
caught by the catch block, which returns the minimal error response. -/
def transformResponse (sha256hex : String → String) (now : Nat)
    (resp : OpenAIResponse) : AnthropicResponse :=
  match (resp.choices.getD []).head? with
  | none => errorResponse now "No choices in OpenAI response"
  | some choice =>
    let message := choice.message
    let thinkingBlocks : List CBlock :=
      if strTruthy message.reasoning_content then
        [.thinking (message.reasoning_content.getD "")
          (generateThinkingSignature sha256hex now (message.reasoning_content.getD ""))]
      else []
    let textBlocks : List CBlock :=
      if strTruthy message.content then [.text (message.content.getD "")] else []
    match buildToolBlocks (toolCallsOf message) with
    | .error m => errorResponse now m
    | .ok toolBlocks =>
      { id := if strTruthy resp.id then resp.id.getD "" else "msg_" ++ toString now
        content := thinkingBlocks ++ textBlocks ++ toolBlocks
        model := some (if strTruthy resp.model then resp.model.getD "" else "glm-4.6")
        stop_reason := mapStopReason choice.finish_reason
        usage :=
          match resp.usage with
          | some v => if jsTruthy v then .passthrough v else .zeros
          | none => .zeros }

/-- The outcome of the single outbound network call of the proxy: a parsed
200 upstream response, or any failure (non-200 status, unparsable body,
timeout, socket error) carrying the rejection message. -/
inductive UpstreamOutcome where
  | success (resp : OpenAIResponse)
  | failure (errMsg : String)

/-- One inbound request to GlmtProxy.handleRequest, abstracted to the branch
of the pipeline it exercises: a non-POST method, a body over the 10 MB cap,
a body that is not valid JSON (with the JSON parse message), a parsed request
together with the outcome of the upstream call, or any other exception inside
the handler (with its message). -/
inductive ReqEvent where
  | notPost (method : String)
  | bodyTooLarge
  | badJson (jsonErrMsg : String)
  | request (req : AnthropicRequest) (upstream : UpstreamOutcome)
  | internalFailure (errMsg : String)

/-- The body of the HTTP reply written by the proxy: the flat error object of
the 405 branch, the structured error envelope, or a translated message. -/
inductive ReplyBody where
  | simpleError (msg : String)
  | errorEnvelope (ty : String) (msg : String)
  | message (resp : AnthropicResponse)

/-- The HTTP reply written by the proxy. -/
structure HttpReply where
  status : Nat
  body : ReplyBody

/-- GlmtProxy.handleRequest, as a function of the pipeline branch. A rejected
body read (too large) and an upstream failure surface as exceptions at the
await points and are caught by the handler's catch block, which answers 500
with a proxy_error envelope; only malformed JSON has its own dedicated 400
branch. -/
def handleRequest (sha256hex : String → String) (now : Nat)
    (defaultThinking : Bool) : ReqEvent → HttpReply
  | .notPost _ => { status := 405, body := .simpleError "Method not allowed" }
  | .bodyTooLarge =>
    { status := 500
      body := .errorEnvelope "proxy_error" "Request body too large (max 10MB)" }
  | .badJson m =>
    { status := 400
      body := .errorEnvelope "invalid_request_error"
        ("Invalid JSON in request body: " ++ m) }
  | .internalFailure m => { status := 500, body := .errorEnvelope "proxy_error" m }
  | .request req upstream =>
    let _tr := transformRequest defaultThinking req
    match upstream with
    | .failure m => { status := 500, body := .errorEnvelope "proxy_error" m }
    | .success resp =>
      { status := 200
        body := .message (transformResponse sha256hex now resp) }

/-- Status code and error-envelope type of a reply (none when the body is not
an error envelope). -/
def statusAndType (r : HttpReply) : Nat × Option String :=
  (r.status,
    match r.body with
    | .errorEnvelope ty _ => some ty
    | _ => none)

/-- Kind rank of a translated content block, in the order the specification
requires: thinking before text before tool_use. -/
def blockKind : CBlock → Nat
  | .thinking _ _ => 0
  | .text _ => 1
  | .toolUse _ _ _ => 2

/-- Whether a translated block is a thinking block. -/
def isThinkingBlock : CBlock → Bool
  | .thinking _ _ => true
  | _ => false

/-- Whether a translated block is a text block. -/
def isTextBlock : CBlock → Bool
  | .text _ => true
  | _ => false

/-- Id and tool name of a tool_use block. -/
def toolIdName : CBlock → Option (String × String)
  | .toolUse i n _ => some (i, n)
  | _ => none

/-- Whether a tool-call argument string parses (used to state when response
translation succeeds). -/
def argsOk : ArgsField → Bool
  | .invalid _ => false
  | _ => true

/-- A concrete upstream choice carrying reasoning text, assistant text and
two tool calls, used to exercise the response translation on one input. -/
def sampleChoice : Choice where
  message :=
    { content := some "done"
      reasoning_content := some "because"
      tool_calls := some
        [{ id := "t1", function := { name := "get", arguments := .valid (.obj []) } },
         { id := "t2", function := { name := "run", arguments := .empty } }] }
  finish_reason := some "tool_calls"

/-- A concrete upstream response whose single choice is sampleChoice. -/
def sampleToolResponse : OpenAIResponse where
  choices := some [sampleChoice]

/-- Whether the messages field is a value the transformation body survives
(anything except the invalid variant). -/
def messagesValid : MessagesField → Bool
  | .invalid _ => false
  | _ => true

/-- Whether a message is one the control-tag scan reads: user role with plain
string content. -/
def isUserString (m : Message) : Bool :=
  m.role == "user" &&
    match m.content with
    | .str _ => true
    | _ => false

/-- Whether a content value is a plain string. -/
def contentIsStr : Content → Bool
  | .str _ => true
  | _ => false

end Glmt

namespace Glmt

/-! ## Helper lemmas -/

/-- A block list whose kinds are all equal is ordered by kind. -/
theorem pairwise_kind_const {l : List CBlock} {k : Nat}
    (h : ∀ b ∈ l, blockKind b = k) :
    List.Pairwise (fun a b => blockKind a ≤ blockKind b) l := by
  induction l with
  | nil => exact List.Pairwise.nil
  | cons x xs ih =>
    refine List.Pairwise.cons (fun b hb => ?_)
      (ih (fun b hb => h b (List.mem_cons_of_mem _ hb)))
    rw [h x (List.mem_cons_self x xs), h b (List.mem_cons_of_mem _ hb)]

/-- Thinking blocks, then text blocks, then tool blocks are ordered by
kind. -/
theorem pairwise_kind_append (tb xb tl : List CBlock)
    (h0 : ∀ b ∈ tb, blockKind b = 0) (h1 : ∀ b ∈ xb, blockKind b = 1)
    (h2 : ∀ b ∈ tl, blockKind b = 2) :
    List.Pairwise (fun a b => blockKind a ≤ blockKind b) (tb ++ xb ++ tl) := by
  rw [List.append_assoc, List.pairwise_append]
  refine ⟨pairwise_kind_const h0, ?_, ?_⟩
  · rw [List.pairwise_append]
    refine ⟨pairwise_kind_const h1, pairwise_kind_const h2, ?_⟩
    intro a ha b hb
    rw [h1 a ha, h2 b hb]
    omega
  · intro a ha b hb
    rcases List.mem_append.mp hb with hb | hb
    · rw [h0 a ha, h1 b hb]; omega
    · rw [h0 a ha, h2 b hb]; omega

/-- A block of kind 2 is a tool_use block, hence neither thinking nor
text. -/
theorem kind_two_not_thinking_text {b : CBlock} (h : blockKind b = 2) :
    isThinkingBlock b = false ∧ isTextBlock b = false := by
  cases b with
  | thinking t s => simp [blockKind] at h
  | text s => simp [blockKind] at h
  | toolUse i n v => exact ⟨rfl, rfl⟩

/-- The tool-block loop succeeds exactly on parseable argument strings,
producing one tool_use block per call, in order, with the call id and tool
name. -/
theorem buildToolBlocks_ok (l : List ToolCall)
    (h : l.all (fun tc => argsOk tc.function.arguments) = true) :
    ∃ bs, buildToolBlocks l = .ok bs
      ∧ bs.filterMap toolIdName = l.map (fun tc => (tc.id, tc.function.name))
      ∧ ∀ b ∈ bs, blockKind b = 2 := by
  induction l with
  | nil => exact ⟨[], rfl, rfl, by intro b hb; cases hb⟩
  | cons tc rest ih =>
    rw [List.all_cons, Bool.and_eq_true] at h
    obtain ⟨ha1, ha2⟩ := h
    obtain ⟨bs, hok, hmap, hkind⟩ := ih ha2
    cases ha : tc.function.arguments with
    | invalid m => rw [ha] at ha1; simp [argsOk] at ha1
    | empty =>
      refine ⟨CBlock.toolUse tc.id tc.function.name (.obj []) :: bs, ?_, ?_, ?_⟩
      · simp [buildToolBlocks, ha, hok, Except.map]
      · simp [List.filterMap_cons, toolIdName, hmap]
      · intro b hb
        rcases List.mem_cons.mp hb with rfl | hb
        · rfl
        · exact hkind b hb
    | valid v =>
      refine ⟨CBlock.toolUse tc.id tc.function.name v :: bs, ?_, ?_, ?_⟩
      · simp [buildToolBlocks, ha, hok, Except.map]
      · simp [List.filterMap_cons, toolIdName, hmap]
      · intro b hb
        rcases List.mem_cons.mp hb with rfl | hb
        · rfl
        · exact hkind b hb

/-- Injecting reasoning parameters never touches the stream field. -/
theorem injectReasoningParams_stream (r : OpenAIRequest) (cfg : ThinkingConfig) :
    (injectReasoningParams r cfg).stream = r.stream := by
  unfold injectReasoningParams
  cases cfg.thinking <;> rfl

/-- The control-tag scan skips messages that are not user messages with plain
string content. -/
theorem controlStep_skip (c : ThinkingConfig) (m : Message)
    (h : isUserString m = false) : controlStep c m = c := by
  unfold controlStep
  unfold isUserString at h
  cases hr : (m.role == "user") with
  | false => simp [hr]
  | true =>
    rw [hr, Bool.true_and] at h
    cases hc : m.content with
    | str s => rw [hc] at h; simp at h
    | blocks bs => simp [hc]
    | other => simp [hc]

/-- Folding the control step over a message list visits exactly the user
messages with string content. -/
theorem foldl_controlStep_filter (init : ThinkingConfig) (ms : List Message) :
    ms.foldl controlStep init = (ms.filter isUserString).foldl controlStep init := by
  induction ms generalizing init with
  | nil => rfl
  | cons m rest ih =>
    cases h : isUserString m with
    | true =>
      rw [List.filter_cons_of_pos h]
      simp only [List.foldl_cons]
      exact ih (controlStep init m)
    | false =>
      rw [List.filter_cons_of_neg (by simp [h])]
      simp only [List.foldl_cons, controlStep_skip init m h]
      exact ih init

/-- Sanitizing a message is idempotent. -/
theorem sanitizeMessage_idem (m : Message) :
    sanitizeMessage (sanitizeMessage m) = sanitizeMessage m := by
  cases hc : m.content with
  | str s => simp [sanitizeMessage, hc]
  | other => simp [sanitizeMessage, hc]
  | blocks bs =>
    rcases hf : bs.filter (fun b => b.type == "text") with _ | ⟨b, _ | ⟨b2, rest⟩⟩
    · have hm : sanitizeMessage m = { role := m.role, content := .str "" } := by
        rw [sanitizeMessage, hc]
        simp [hf]
      rw [hm]
      rfl
    · have hb : (b.type == "text") = true := by
        have hmem : b ∈ bs.filter (fun b => b.type == "text") := by
          rw [hf]; exact List.mem_singleton.mpr rfl
        exact (List.mem_filter.mp hmem).2
      have hm : sanitizeMessage m = { role := m.role, content := .str b.text } := by
        rw [sanitizeMessage, hc]
        simp [hf, hb]
      rw [hm]
      rfl
    · have hall : ∀ x ∈ b :: b2 :: rest, (x.type == "text") = true := by
        intro x hx
        have hmem : x ∈ bs.filter (fun b => b.type == "text") := by rw [hf]; exact hx
        exact (List.mem_filter.mp hmem).2
      have hm : sanitizeMessage m = { role := m.role, content := .blocks (b :: b2 :: rest) } := by
        rw [sanitizeMessage, hc]
        simp [hf]
      rw [hm, sanitizeMessage]
      simp only [List.filter_eq_self.mpr hall]

/-- Sanitizing a list of messages whose contents are all plain strings
returns the list unchanged. -/
theorem sanitizeMessages_all_str (ms : List Message)
    (h : ms.all (fun m => contentIsStr m.content) = true) :
    sanitizeMessages ms = ms := by
  induction ms with
  | nil => rfl
  | cons m rest ih =>
    rw [List.all_cons, Bool.and_eq_true] at h
    obtain ⟨h1, h2⟩ := h
    unfold sanitizeMessages
    rw [List.map_cons]
    have hm : sanitizeMessage m = m := by
      unfold contentIsStr at h1
      cases hc : m.content with
      | str s => simp [sanitizeMessage, hc]
      | blocks bs => rw [hc] at h1; simp at h1
      | other => rw [hc] at h1; simp at h1
    rw [hm]
    have := ih h2
    unfold sanitizeMessages at this
    rw [this]

/-! ## Claim theorems -/

/-- C1: an inbound request whose only user message is the execution-only
prompt "list files", with no explicit control tag, keeps the constructor
default thinking = true: no keyword-based task classification exists in the
transformation code, so reasoning is NOT disabled for execution-only
prompts, contrary to the claim and to the repository's own documentation. -/
theorem execution_only_prompt_keeps_default_thinking :
    (transformRequest true
        { messages := .list [{ role := "user", content := .str "list files" }] }).thinkingConfig
      = { thinking := true, effort := some "medium" } := rfl

/-- C2 counterexample: a single user message containing a Thinking-Off tag
followed by a Thinking-On tag yields thinking = false, because the source
matches without the global regex flag and so the FIRST occurrence inside a
message wins, while the claim predicts the last occurrence (On) wins. -/
theorem conflicting_tags_single_message_counterexample :
    (extractThinkingControl true
        [{ role := "user",
           content := .str "<Thinking:Off> plan the work <Thinking:On>" }]).thinking
      = false := by decide

/-- C2 amended: across the message sequence the last user string-message
carrying a tag wins (later messages overwrite earlier ones), but inside a
single message the FIRST occurrence of each tag is the one extracted. -/
theorem last_message_first_occurrence_wins (d : Bool) (ms : List Message)
    (s : String) (ex : List (String × String)) :
    (∀ b, matchThinking (lowerChars s) = some b →
        (extractThinkingControl d
          (ms ++ [{ role := "user", content := .str s, extra := ex }])).thinking = b)
    ∧ (∀ e, matchEffort (lowerChars s) = some e →
        (extractThinkingControl d
          (ms ++ [{ role := "user", content := .str s, extra := ex }])).effort = e) := by
  unfold extractThinkingControl
  rw [List.foldl_append]
  constructor
  · intro b hb
    simp only [List.foldl_cons, List.foldl_nil, controlStep, hb]
    cases hme : matchEffort (lowerChars s) <;> simp [hme]
  · intro e he
    simp only [List.foldl_cons, List.foldl_nil, controlStep, he]
    cases hmt : matchThinking (lowerChars s) <;> simp [hmt]

/-- C2 amended, witness: an earlier On tag is overridden by a later message
whose first tag is Off (even though that later message also carries an On tag
after it), and the later message's effort tag is extracted. -/
theorem last_message_first_occurrence_wins_witness :
    (extractThinkingControl true
        ([{ role := "user", content := .str "<Thinking:On> hello" }] ++
          [{ role := "user",
             content := .str "<Thinking:Off> <Effort:High> <Thinking:On>",
             extra := [] }])).thinking = false
    ∧ (extractThinkingControl true
        ([{ role := "user", content := .str "<Thinking:On> hello" }] ++
          [{ role := "user",
             content := .str "<Thinking:Off> <Effort:High> <Thinking:On>",
             extra := [] }])).effort = "high" :=
  ⟨(last_message_first_occurrence_wins true
      [{ role := "user", content := .str "<Thinking:On> hello" }]
      "<Thinking:Off> <Effort:High> <Thinking:On>" []).1 false (by decide),
   (last_message_first_occurrence_wins true
      [{ role := "user", content := .str "<Thinking:On> hello" }]
      "<Thinking:Off> <Effort:High> <Thinking:On>" []).2 "high" (by decide)⟩

/-- C3 counterexample: for an upstream response with an empty choices array,
response transformation hands back a fully fabricated assistant message (type
message, role assistant, with the error text as its only content block), and
the proxy writes it to the client with HTTP status 200 — it is not surfaced
as an internal error. -/
theorem zero_choices_fabricated_message_counterexample :
    (transformResponse (fun _ => "") 0 { choices := some [] }).role = "assistant"
    ∧ (transformResponse (fun _ => "") 0 { choices := some [] }).type = "message"
    ∧ (transformResponse (fun _ => "") 0 { choices := some [] }).content
        = [.text "[Transformation Error] No choices in OpenAI response"]
    ∧ (handleRequest (fun _ => "") 0 true
        (.request { messages := .absent }
          (.success { choices := some [] }))).status = 200 :=
  ⟨rfl, rfl, rfl, rfl⟩

/-- C3 amended: a zero-choice upstream response makes transformResponse throw
internally, and its catch block returns the synthesized minimal response: a
non-empty assistant text message carrying the error text, stop_reason
end_turn, zeroed usage. The client is handed this fabricated message rather
than an error. -/
theorem zero_choices_yields_error_text_response (sha256hex : String → String)
    (now : Nat) (resp : OpenAIResponse) (h : resp.choices.getD [] = []) :
    transformResponse sha256hex now resp =
      errorResponse now "No choices in OpenAI response" := by
  unfold transformResponse
  rw [h]
  rfl

/-- C3 amended, witness. -/
theorem zero_choices_yields_error_text_response_witness :
    transformResponse (fun _ => "deadbeef") 7 { choices := some [] } =
      errorResponse 7 "No choices in OpenAI response" :=
  zero_choices_yields_error_text_response (fun _ => "deadbeef") 7
    { choices := some [] } rfl

/-- C4 counterexample: the body-too-large terminal state and the upstream
failure terminal state map to the SAME status and error type (500,
proxy_error), so the four terminal error states are not mapped to distinct
status/error-type pairs. -/
theorem error_states_not_distinct_counterexample :
    statusAndType (handleRequest (fun _ => "") 0 true .bodyTooLarge)
      = statusAndType (handleRequest (fun _ => "") 0 true
          (.request { messages := .absent } (.failure "connect ECONNREFUSED")))
    ∧ statusAndType (handleRequest (fun _ => "") 0 true .bodyTooLarge)
        = (500, some "proxy_error") :=
  ⟨rfl, rfl⟩

/-- C4 amended: malformed JSON gets its own pair (400, invalid_request_error),
while body too large, upstream failure and internal failure all collapse to
the single pair (500, proxy_error) of the handler's catch-all: only two
distinct status/error-type pairs exist among the four terminal error
states. -/
theorem error_state_status_mapping (sha256hex : String → String) (now : Nat)
    (d : Bool) :
    statusAndType (handleRequest sha256hex now d .bodyTooLarge)
        = (500, some "proxy_error")
    ∧ (∀ m, statusAndType (handleRequest sha256hex now d (.badJson m))
        = (400, some "invalid_request_error"))
    ∧ (∀ req m, statusAndType (handleRequest sha256hex now d
          (.request req (.failure m))) = (500, some "proxy_error"))
    ∧ (∀ m, statusAndType (handleRequest sha256hex now d (.internalFailure m))
        = (500, some "proxy_error"))
    ∧ (400, some "invalid_request_error") ≠
        ((500, some "proxy_error") : Nat × Option String) := by
  refine ⟨rfl, fun m => rfl, fun req m => rfl, fun m => rfl, by decide⟩

/-- C5 counterexample: a request whose messages field makes the
transformation body throw (a non-iterable value) while asking for streaming
is forwarded as the ORIGINAL payload by the fallback path, so the outbound
request still carries stream = true. -/
theorem stream_not_forced_off_on_fallback_counterexample :
    outStream ((transformRequest true
        { messages := .invalid "anthropicRequest.messages is not iterable",
          stream := some true }).openaiRequest) = some true := rfl

/-- C5 amended: for every request the transformation body survives (the
messages field is not an invalid value), the outbound request has stream
false, whatever the inbound stream flag was; only the exception fallback can
forward a truthy stream flag. -/
theorem stream_forced_off_on_success (d : Bool) (req : AnthropicRequest)
    (h : messagesValid req.messages = true) :
    outStream ((transformRequest d req).openaiRequest) = some false := by
  cases hm : req.messages with
  | invalid m => rw [hm] at h; simp [messagesValid] at h
  | absent =>
    unfold transformRequest
    rw [hm]
    simp only [outStream, Option.some.injEq]
    rw [injectReasoningParams_stream]
    cases hs : req.stream with
    | none => simp [hs]
    | some b => cases b <;> simp [hs]
  | list ms =>
    unfold transformRequest
    rw [hm]
    simp only [outStream, Option.some.injEq]
    rw [injectReasoningParams_stream]
    cases hs : req.stream with
    | none => simp [hs]
    | some b => cases b <;> simp [hs]

/-- C5 amended, witness. -/
theorem stream_forced_off_on_success_witness :
    outStream ((transformRequest true
        { messages := .list [{ role := "user", content := .str "hello" }],
          stream := some true }).openaiRequest) = some false :=
  stream_forced_off_on_success true
    { messages := .list [{ role := "user", content := .str "hello" }],
      stream := some true } rfl

/-- C8 counterexample: on the exception fallback, the returned ThinkingConfig
object is exactly the bare thinking-off record and carries NO error marker;
the error marker is a sibling property of the returned result object
instead. -/
theorem fallback_error_marker_not_on_config_counterexample :
    (transformRequest true
        { messages := .invalid "messages is not iterable" }).thinkingConfig.error
      = none
    ∧ (transformRequest true
        { messages := .invalid "messages is not iterable" }).error
      = some "messages is not iterable" :=
  ⟨rfl, rfl⟩

/-- C8 amended: when the transformation body throws, the transformer returns
the original inbound payload unmodified as the outbound request, with a bare
thinking-off ThinkingConfig (no effort, no error field), and the error marker
is carried on the returned result object next to the config. -/
theorem transform_exception_fallback (d : Bool) (req : AnthropicRequest)
    (m : String) (h : req.messages = .invalid m) :
    transformRequest d req =
      { openaiRequest := .original req
        thinkingConfig := { thinking := false, effort := none, error := none }
        error := some m } := by
  unfold transformRequest
  rw [h]

/-- C8 amended, witness. -/
theorem transform_exception_fallback_witness :
    transformRequest true
        { messages := .invalid "messages is not iterable", stream := some true } =
      { openaiRequest := .original
          { messages := .invalid "messages is not iterable", stream := some true }
        thinkingConfig := { thinking := false, effort := none, error := none }
        error := some "messages is not iterable" } :=
  transform_exception_fallback true
    { messages := .invalid "messages is not iterable", stream := some true }
    "messages is not iterable" rfl

/-- C9: the control-tag scan reads exactly the user messages whose content is
a plain string: extraction over any message list coincides with extraction
over the sublist of user string-messages, so tags inside block arrays or
non-user messages never influence the ThinkingConfig. -/
theorem control_tags_only_from_user_string_messages (d : Bool)
    (ms : List Message) :
    extractThinkingControl d ms
      = extractThinkingControl d (ms.filter isUserString) :=
  foldl_controlStep_filter _ ms

/-- C10: a message whose content is a block array is rebuilt from only its
role and content (every other field is dropped), while a message whose
content is a plain string is returned as the very same object, extra fields
included. -/
theorem sanitize_message_frame_effect (m : Message) :
    (∀ s, m.content = .str s → sanitizeMessage m = m)
    ∧ (∀ bs, m.content = .blocks bs →
        (sanitizeMessage m).role = m.role ∧ (sanitizeMessage m).extra = []) := by
  constructor
  · intro s hs
    rw [sanitizeMessage, hs]
  · intro bs hb
    rw [sanitizeMessage, hb]
    rcases hf : bs.filter (fun b => b.type == "text") with _ | ⟨b, _ | ⟨b2, rest⟩⟩
    · simp [hf]
    · simp only [hf]
      cases hbt : (b.type == "text") <;> simp [hbt]
    · simp [hf]

/-- C10 witness: a string-content message with an extra field is returned
unchanged; a block-array message with an extra field loses it. -/
theorem sanitize_message_frame_effect_witness :
    sanitizeMessage
        { role := "user", content := .str "hi", extra := [("name", "n1")] }
      = { role := "user", content := .str "hi", extra := [("name", "n1")] }
    ∧ (sanitizeMessage
        { role := "user",
          content := .blocks [{ type := "text", text := "a" },
            { type := "thinking", text := "b" }],
          extra := [("name", "n2")] }).role = "user"
    ∧ (sanitizeMessage
        { role := "user",
          content := .blocks [{ type := "text", text := "a" },
            { type := "thinking", text := "b" }],
          extra := [("name", "n2")] }).extra = [] :=
  ⟨(sanitize_message_frame_effect _).1 "hi" rfl,
   ((sanitize_message_frame_effect _).2
      [{ type := "text", text := "a" }, { type := "thinking", text := "b" }] rfl).1,
   ((sanitize_message_frame_effect _).2
      [{ type := "text", text := "a" }, { type := "thinking", text := "b" }] rfl).2⟩

/-- C7 counterexample: a message list that is text-only by way of a
single-element text-block array is NOT returned unchanged by sanitization:
the lone text block collapses to a plain string. -/
theorem text_only_block_list_changed_counterexample :
    sanitizeMessages
        [{ role := "user", content := .blocks [{ type := "text", text := "hi" }] }]
      = [{ role := "user", content := .str "hi" }]
    ∧ ([{ role := "user", content := .blocks [{ type := "text", text := "hi" }] }] :
          List Message)
      ≠ [{ role := "user", content := .str "hi" }] :=
  ⟨rfl, by decide⟩

/-- C7 amended: sanitizing a message list whose contents are all plain
strings returns it unchanged, and sanitization is idempotent; but a
text-only BLOCK-ARRAY content can be rewritten on the first pass (a single
text block collapses to its string), so text-only lists in general are not
fixed points. -/
theorem sanitize_plain_unchanged_and_idempotent (ms : List Message) :
    (ms.all (fun m => contentIsStr m.content) = true → sanitizeMessages ms = ms)
    ∧ sanitizeMessages (sanitizeMessages ms) = sanitizeMessages ms := by
  refine ⟨sanitizeMessages_all_str ms, ?_⟩
  unfold sanitizeMessages
  rw [List.map_map]
  exact List.map_congr_left (fun m _ => sanitizeMessage_idem m)

/-- C7 amended, witness. -/
theorem sanitize_plain_unchanged_and_idempotent_witness :
    sanitizeMessages
        [{ role := "system", content := .str "be brief" },
         { role := "user", content := .str "hello" }]
      = [{ role := "system", content := .str "be brief" },
         { role := "user", content := .str "hello" }]
    ∧ sanitizeMessages (sanitizeMessages
        [{ role := "user",
           content := .blocks [{ type := "text", text := "a" },
             { type := "tool_result", text := "r" }] }])
      = sanitizeMessages
        [{ role := "user",
           content := .blocks [{ type := "text", text := "a" },
             { type := "tool_result", text := "r" }] }] :=
  ⟨(sanitize_plain_unchanged_and_idempotent
      [{ role := "system", content := .str "be brief" },
       { role := "user", content := .str "hello" }]).1 (by decide),
   (sanitize_plain_unchanged_and_idempotent
      [{ role := "user",
         content := .blocks [{ type := "text", text := "a" },
           { type := "tool_result", text := "r" }] }]).2⟩

/-- C6: in every successfully translated response (a first choice exists and
every tool-call argument string parses), the content blocks are ordered
thinking before text before tool_use; the thinking block is present exactly
when reasoning_content is a present non-empty string, the text block exactly
when the assistant text is a present non-empty string, and the tool_use
blocks are one per upstream tool call, in upstream order, carrying the call
ids and tool names. -/
theorem translated_content_block_ordering (sha256hex : String → String)
    (now : Nat) (resp : OpenAIResponse) (c : Choice)
    (h1 : (resp.choices.getD []).head? = some c)
    (h2 : (toolCallsOf c.message).all (fun tc => argsOk tc.function.arguments)
        = true) :
    List.Pairwise (fun a b => blockKind a ≤ blockKind b)
        (transformResponse sha256hex now resp).content
    ∧ ((transformResponse sha256hex now resp).content.countP isThinkingBlock
        = if strTruthy c.message.reasoning_content then 1 else 0)
    ∧ ((transformResponse sha256hex now resp).content.countP isTextBlock
        = if strTruthy c.message.content then 1 else 0)
    ∧ ((transformResponse sha256hex now resp).content.filterMap toolIdName
        = (toolCallsOf c.message).map (fun tc => (tc.id, tc.function.name))) := by
  obtain ⟨bs, hok, hmap, hkind⟩ := buildToolBlocks_ok _ h2
  have hcontent : (transformResponse sha256hex now resp).content =
      (if strTruthy c.message.reasoning_content then
        [CBlock.thinking (c.message.reasoning_content.getD "")
          (generateThinkingSignature sha256hex now
            (c.message.reasoning_content.getD ""))]
       else [])
      ++ (if strTruthy c.message.content then
            [CBlock.text (c.message.content.getD "")]
          else [])
      ++ bs := by
    unfold transformResponse
    rw [h1]
    simp only [hok]
  rw [hcontent]
  have h0 : ∀ b ∈ (if strTruthy c.message.reasoning_content then
      [CBlock.thinking (c.message.reasoning_content.getD "")
        (generateThinkingSignature sha256hex now
          (c.message.reasoning_content.getD ""))] else []), blockKind b = 0 := by
    intro b hb
    split at hb
    · rw [List.mem_singleton.mp hb]; rfl
    · cases hb
  have hx : ∀ b ∈ (if strTruthy c.message.content then
      [CBlock.text (c.message.content.getD "")] else []), blockKind b = 1 := by
    intro b hb
    split at hb
    · rw [List.mem_singleton.mp hb]; rfl
    · cases hb
  refine ⟨pairwise_kind_append _ _ _ h0 hx hkind, ?_, ?_, ?_⟩
  · rw [List.countP_append, List.countP_append]
    have hbs : bs.countP isThinkingBlock = 0 :=
      List.countP_eq_zero.mpr (fun b hb => by
        rw [(kind_two_not_thinking_text (hkind b hb)).1]
        exact Bool.false_ne_true)
    have hxt : (if strTruthy c.message.content then
        [CBlock.text (c.message.content.getD "")] else []).countP isThinkingBlock = 0 := by
      split <;> rfl
    rw [hbs, hxt]
    split <;> rfl
  · rw [List.countP_append, List.countP_append]
    have hbs : bs.countP isTextBlock = 0 :=
      List.countP_eq_zero.mpr (fun b hb => by
        rw [(kind_two_not_thinking_text (hkind b hb)).2]
        exact Bool.false_ne_true)
    have htk : (if strTruthy c.message.reasoning_content then
        [CBlock.thinking (c.message.reasoning_content.getD "")
          (generateThinkingSignature sha256hex now
            (c.message.reasoning_content.getD ""))] else []).countP isTextBlock = 0 := by
      split <;> rfl
    rw [hbs, htk]
    split <;> rfl
  · rw [List.filterMap_append, List.filterMap_append]
    have htk : (if strTruthy c.message.reasoning_content then
        [CBlock.thinking (c.message.reasoning_content.getD "")
          (generateThinkingSignature sha256hex now
            (c.message.reasoning_content.getD ""))] else []).filterMap toolIdName = [] := by
      split <;> rfl
    have hxt : (if strTruthy c.message.content then
        [CBlock.text (c.message.content.getD "")] else []).filterMap toolIdName = [] := by
      split <;> rfl
    rw [htk, hxt, hmap]
    rfl

/-- C6 witness: a response with reasoning text, assistant text and two tool
calls translates to exactly one thinking block, one text block and two
tool_use blocks, in that order. -/
theorem translated_content_block_ordering_witness :
    List.Pairwise (fun a b => blockKind a ≤ blockKind b)
        (transformResponse (fun _ => "abc123") 5 sampleToolResponse).content
    ∧ ((transformResponse (fun _ => "abc123") 5
          sampleToolResponse).content.countP isThinkingBlock = 1)
    ∧ ((transformResponse (fun _ => "abc123") 5
          sampleToolResponse).content.countP isTextBlock = 1)
    ∧ ((transformResponse (fun _ => "abc123") 5
          sampleToolResponse).content.filterMap toolIdName
        = [("t1", "get"), ("t2", "run")]) :=
  translated_content_block_ordering (fun _ => "abc123") 5
    sampleToolResponse sampleChoice rfl rfl

end Glmt
